import Mathlib

/-!
Shallow embedding of `gistapi/gistapi.py` (a Flask service that searches a
GitHub user's gists with a regular expression) and proofs about the spec's
claims.

Modelling conventions:
* JSON values decoded from HTTP bodies are modelled by `JVal` (strings,
  objects as ordered association lists, arrays, and `null`).  Python dict
  truthiness (`if gist_data:`) is `JVal.truthy`.
* A function that can raise a Python exception is modelled with `Option` /
  `Except`: `none` / `.error` means "an exception was raised".
* Network responses are oracle parameters: `get_gist` takes the response's
  status code and decoded body, `gists_for_user` takes the list of
  successive page responses its chain of requests would receive.
* The mutable default argument `data=[]` of `gists_for_user` is modelled
  explicitly: `gists_for_user_st` returns both the function's return value
  and the final contents of the shared accumulator object.
-/

set_option autoImplicit false

namespace Gistapi

/-- A decoded JSON value, as `response.json()` produces it.  Objects are
ordered association lists (Python dicts preserve insertion order); numbers
do not occur in any behaviour the claims exercise and are omitted. -/
inductive JVal where
  | str (s : String)
  | obj (fields : List (String × JVal))
  | arr (elems : List JVal)
  | null

/-- Python truthiness of a decoded value: empty containers, the empty
string and `None` are falsy. -/
def JVal.truthy : JVal → Bool
  | .str s => !s.isEmpty
  | .obj fields => !fields.isEmpty
  | .arr elems => !elems.isEmpty
  | .null => false

/-- Truthiness of `get_gist`'s result: `False` (modelled `none`) and falsy
values are falsy. -/
def truthyOpt : Option JVal → Bool
  | none => false
  | some v => v.truthy

/-- First binding of a key in an object's field list (`dict` lookup;
Python dict keys are unique, so first-match is exact). -/
def jlookup : List (String × JVal) → String → Option JVal
  | [], _ => none
  | (k, v) :: rest, key => if k = key then some v else jlookup rest key

/-- `d.get(key)` on a decoded mapping: `none` when the key is absent.
On a non-mapping the source would raise `AttributeError`; callers that can
receive a non-mapping handle that case themselves. -/
def jget (fields : List (String × JVal)) (key : String) : Option JVal :=
  jlookup fields key

/-!
### Gist Content Fetcher: `get_gist` (gistapi.py lines 24-62)

`get_gist(id)` issues one GET request; we model it as a function of that
response.  `status` is `response.status_code`, `body` is the decoded
`response.json()` (`none` when decoding raises).  The source returns
`False` on every failure path, which we model as `none`.

Faithful detail: when the body decodes to a non-mapping (a list, a string,
`null`), `response_data.keys()` raises `AttributeError`, which the bare
`except:` catches, so the source returns `False` there too.
-/

def get_gist (status : Nat) (body : Option JVal) : Option JVal :=
  if status = 403 ∨ status = 404 then none
  else
    match body with
    | none => none
    | some v =>
      match v with
      | .obj fields =>
        if (jlookup fields "documentation_url").isSome ∧
            (jlookup fields "message").isSome then none
        else some (JVal.obj fields)
      | _ => none

/-!
### Regular expressions: the model of `re.compile` / `re.match`

The source delegates matching to Python's `re`; we embed a standard regex
core (enough to express the anchoring semantics the spec talks about) with
a Brzozowski-derivative matcher.  `rmatchL r cs` is a *full* match of `r`
against `cs`; `pymatchL r cs` is the truthiness of `re.match`: it succeeds
iff some prefix of `cs` (starting at position 0, possibly empty) is fully
matched by `r`.
-/

inductive Regex where
  | emptyset
  | eps
  | char (c : Char)
  | alt (r s : Regex)
  | cat (r s : Regex)
  | star (r : Regex)
deriving DecidableEq

/-- Does the regex accept the empty string? -/
def Regex.nullable : Regex → Bool
  | .emptyset => false
  | .eps => true
  | .char _ => false
  | .alt r s => r.nullable || s.nullable
  | .cat r s => r.nullable && s.nullable
  | .star _ => true

/-- Brzozowski derivative with respect to one character. -/
def Regex.deriv (c : Char) : Regex → Regex
  | .emptyset => .emptyset
  | .eps => .emptyset
  | .char d => if c = d then .eps else .emptyset
  | .alt r s => .alt (r.deriv c) (s.deriv c)
  | .cat r s =>
    if r.nullable then .alt (.cat (r.deriv c) s) (s.deriv c)
    else .cat (r.deriv c) s
  | .star r => .cat (r.deriv c) (.star r)

/-- Full match of a regex against a character list. -/
def rmatchL (r : Regex) : List Char → Bool
  | [] => r.nullable
  | c :: cs => rmatchL (r.deriv c) cs

/-- Truthiness of `re.match(r, cs)`: some prefix of `cs`, starting at
position 0, is fully matched (a zero-width match object is truthy). -/
def pymatchL (r : Regex) : List Char → Bool
  | [] => r.nullable
  | c :: cs => r.nullable || pymatchL (r.deriv c) cs

/-- Full match against a string. -/
def rmatch (r : Regex) (s : String) : Bool :=
  rmatchL r s.data

/-- Truthiness of `re.match` against a string. -/
def pymatch (r : Regex) (s : String) : Bool :=
  pymatchL r s.data

/-!
### User Gist Lister: `gists_for_user` (gistapi.py lines 64-113)

One entry of `pages` is the response received for one page request in the
chain the recursion issues (the initial per-user URL, then each `next`
link).  `status` is `response.status_code`, `body` the decoded
`response.json()` (`none` when decoding raises), `hasNext` whether
`'next' in response.links`.
-/

structure PageResp where
  status : Nat
  body : Option JVal
  hasNext : Bool

/-- The recursion of `gists_for_user`, with the mutable accumulator made
explicit.  `data` is the contents of the list object bound to the `data`
parameter (the module-level default list when the caller used the
default).  The result is `(return value, final contents of that object)`:
`data += response_data` mutates the object in place, so on a failing page
the function returns a fresh `[]` while the accumulator keeps everything
appended by the pages that succeeded before it.  An exhausted `pages`
oracle (no response for a pending request) does not occur under the
hypotheses used below; we let it behave like a decode failure. -/
def gists_for_user_st : List PageResp → List JVal → List JVal × List JVal
  | [], data => ([], data)
  | p :: rest, data =>
    if p.status = 422 then ([], data)
    else
      match p.body with
      | some (.arr items) =>
        let data' := data ++ items
        if p.hasNext then gists_for_user_st rest data'
        else (data', data')
      | _ => ([], data)

/-- The return value of one call of `gists_for_user`, given the page
responses and the accumulator contents at entry. -/
def gists_for_user (pages : List PageResp) (data : List JVal) : List JVal :=
  (gists_for_user_st pages data).1

/-- The items a page's decoded body carries (empty for a non-list body). -/
def pageItems (p : PageResp) : List JVal :=
  match p.body with
  | some (.arr items) => items
  | _ => []

/-- All items of a page sequence, in page order. -/
def allItems : List PageResp → List JVal
  | [] => []
  | p :: rest => pageItems p ++ allItems rest

/-- A page that passes every check of `gists_for_user`: status is not 422
and the body decodes to a list. -/
def pageOk (p : PageResp) : Bool :=
  decide (p.status ≠ 422) &&
    (match p.body with
     | some (.arr _) => true
     | _ => false)

/-- A page on which `gists_for_user` fails: status 422, a non-list decoded
body, or a decode failure. -/
def pageFails (p : PageResp) : Bool :=
  !(pageOk p)

/-- A complete successful listing: every page passes the checks, every
page but the last carries a `next` link, and the last does not. -/
def chained : List PageResp → Bool
  | [] => false
  | [p] => pageOk p && !p.hasNext
  | p :: rest => pageOk p && p.hasNext && chained rest

/-!
### Content Aggregator: `get_gist_files_content` (gistapi.py lines 115-129)

`content += item.get('content') + "\n"` raises `TypeError` when a file
entry has no `content` (or a non-string one), and `.values()` /
`.get(...)` raise `AttributeError` on non-mapping values; `none` models
any such exception escaping the function.
-/

/-- One file entry's contribution: `item.get('content') + "\n"`.  Only a
mapping entry with a string `content` contributes; anything else raises. -/
def fileContent : JVal → Option String
  | .obj fields =>
    match jlookup fields "content" with
    | some (.str s) => some (s ++ "\n")
    | _ => none
  | _ => none

/-- The loop over `files.values()`, left to right, stopping at the first
exception. -/
def aggFiles : List (String × JVal) → Option String
  | [] => some ""
  | (_, v) :: rest => do
    let c ← fileContent v
    let r ← aggFiles rest
    pure (c ++ r)

/-- `get_gist_files_content(gist_data)`. -/
def get_gist_files_content : JVal → Option String
  | .obj fields =>
    match jlookup fields "files" with
    | some f =>
      if f.truthy then
        match f with
        | .obj ffields => aggFiles ffields
        | _ => none
      else some ""
    | none => some ""
  | _ => none

/-!
### Search Orchestrator: `search` (gistapi.py lines 131-181)

The route reads the JSON payload, checks `['username','pattern'] !=
list(post_data.keys())` (an *ordered* list comparison), checks the two
values for emptiness, lists the user's gists, and runs the per-gist loop.
The loop fetches each gist, and only for a truthy fetched record compiles
the pattern (`re.compile` sits *inside* the loop) and matches it against
the aggregated content.  Finally `matches` is deduplicated with
`list(set(matches))`.

Oracle parameters: `compile` is `re.compile` (`none` = `re.error`),
`pages` the listing responses, `fetch` maps the argument `gist.get('id')`
to what `get_gist` returns for it (`none` = `False`), `defaultData` the
contents of `gists_for_user`'s shared default accumulator at entry.
-/

/-- An exception escaping the route: `ValueError` from validation,
`re.error` from `re.compile`, or a runtime error (`TypeError` /
`AttributeError`) from the loop body. -/
inductive PyExc where
  | valueError
  | reError
  | runtimeError
deriving DecidableEq

/-- `str(x)` as used by `'%s' % x`.  The claims only exercise string ids
and `None`; the rendering of container values is abstracted. -/
def pyStr : Option JVal → String
  | some (.str s) => s
  | some .null => "None"
  | none => "None"
  | some (.obj _) => "<dict>"
  | some (.arr _) => "<list>"

/-- `'https://gist.github.com/%s/%s' % (username, gist.get('id'))`. -/
def gistUrl (username : String) (idv : Option JVal) : String :=
  "https://gist.github.com/" ++ username ++ "/" ++ pyStr idv

/-- `gist.get('id')` for a listing entry (only a mapping entry has
`.get`; the loop raises on anything else before fetching). -/
def gistIdArg : JVal → Option JVal
  | .obj fields => jget fields "id"
  | _ => none

/-- The per-gist loop.  Returns the ordered list of arguments `get_gist`
was called with (the outbound gist fetches actually performed) and either
the `matches` list in append order or the exception that escaped. -/
def searchLoop (username : String) (compile : String → Option Regex)
    (patternStr : String) (fetch : Option JVal → Option JVal) :
    List JVal → List (Option JVal) × Except PyExc (List String)
  | [] => ([], .ok [])
  | g :: rest =>
    match g with
    | .obj fields =>
      let idv := jget fields "id"
      let gist_data := fetch idv
      if truthyOpt gist_data then
        match compile patternStr with
        | none => ([idv], .error .reError)
        | some r =>
          match gist_data with
          | some rec =>
            match get_gist_files_content rec with
            | none => ([idv], .error .runtimeError)
            | some t =>
              let (tr, res) := searchLoop username compile patternStr fetch rest
              (idv :: tr,
                res.map fun ms =>
                  if pymatch r t then gistUrl username idv :: ms else ms)
          | none =>
            -- unreachable: a truthy `gist_data` is `some` of a truthy value
            ([idv], .error .runtimeError)
      else
        let (tr, res) := searchLoop username compile patternStr fetch rest
        (idv :: tr, res)
    | _ => ([], .error .runtimeError)

/-- Which outbound calls the route performed: whether the listing
endpoint was hit at all, and the gist fetches in order. -/
structure Trace where
  listingFetched : Bool
  gistFetches : List (Option JVal)

/-- The JSON body of a successful response.  `matchesSet` is the value of
the body's `matches` key (`matches` itself is a Lean keyword). -/
structure SearchResult where
  status : String
  username : String
  pattern : String
  matchesSet : List String

/-- The `/api/v1/search` route body.  `payloadKeys` is
`list(post_data.keys())` and `username` / `pattern` are the payload's two
values (after the key check they are exactly the payload's entries).
`list(set(matches))` returns the distinct URLs in an unspecified order; we
model it with `List.dedup`, which is exact up to that reordering. -/
def search (payloadKeys : List String) (username patternStr : String)
    (compile : String → Option Regex) (pages : List PageResp)
    (fetch : Option JVal → Option JVal) (defaultData : List JVal) :
    Trace × Except PyExc SearchResult :=
  if payloadKeys ≠ ["username", "pattern"] then
    (⟨false, []⟩, .error .valueError)
  else if username = "" ∨ patternStr = "" then
    (⟨false, []⟩, .error .valueError)
  else
    let gists := gists_for_user pages defaultData
    let (tr, res) := searchLoop username compile patternStr fetch gists
    (⟨true, tr⟩, res.map fun ms => ⟨"success", username, patternStr, ms.dedup⟩)

/-- Declarative description of the per-gist step's recorded URLs: a gist
contributes its URL exactly when its fetched record is truthy and the
pattern matches the aggregated content at position 0 (`pymatch`).  Used to
characterise `searchLoop`'s output. -/
def matchedUrls (username : String) (r : Regex)
    (fetch : Option JVal → Option JVal) (gists : List JVal) : List String :=
  gists.filterMap fun g =>
    match g with
    | .obj fields =>
      let idv := jget fields "id"
      match fetch idv with
      | some rec =>
        if rec.truthy then
          match get_gist_files_content rec with
          | some t => if pymatch r t then some (gistUrl username idv) else none
          | none => none
        else none
      | none => none
    | _ => none

/-!
### Concrete fixtures used by witnesses and counterexamples
-/

/-- The regex the pattern string `"foo"` compiles to. -/
def fooRe : Regex := .cat (.char 'f') (.cat (.char 'o') (.char 'o'))

/-- A fetch oracle: gist `1` has content `"foobar"` (matches `foo` at the
start), gist `2` has content `"xfoo"` (only a mid-string occurrence),
anything else fails to fetch. -/
def fetchW : Option JVal → Option JVal
  | some (.str s) =>
    if s = "1" then
      some (.obj [("files", .obj [("f", .obj [("content", .str "foobar")])])])
    else if s = "2" then
      some (.obj [("files", .obj [("f", .obj [("content", .str "xfoo")])])])
    else none
  | _ => none

/-- A two-gist listing: ids `1` and `2`. -/
def gistsW : List JVal := [.obj [("id", .str "1")], .obj [("id", .str "2")]]

/-- Listing page responses: three chained pages of one item each. -/
def pageOne1 : PageResp := ⟨200, some (.arr [.obj [("id", .str "1")]]), true⟩

def pageOne2 : PageResp := ⟨200, some (.arr [.obj [("id", .str "2")]]), true⟩

def pageOne3 : PageResp := ⟨200, some (.arr [.obj [("id", .str "3")]]), false⟩

/-- A page response with status 422 (invalid username). -/
def page422 : PageResp := ⟨422, some (.arr []), false⟩

/-- A successful one-item page that advertises a `next` link. -/
def pageNext1 : PageResp := ⟨200, some (.arr [.obj [("id", .str "1")]]), true⟩

/-- A single complete page listing one gist. -/
def pageSingle : PageResp := ⟨200, some (.arr [.obj [("id", .str "1")]]), false⟩

/-- A single complete page listing gist `3` (fetch fails) then gist `1`
(fetch succeeds). -/
def pageSkipThenHit : PageResp :=
  ⟨200, some (.arr [.obj [("id", .str "3")], .obj [("id", .str "1")]]), false⟩

/-- A single complete page listing gist `1` twice (its URL would be
recorded twice before deduplication). -/
def pageDup : PageResp :=
  ⟨200, some (.arr [.obj [("id", .str "1")], .obj [("id", .str "1")]]), false⟩

/-- The response body produced by the duplicate-listing run. -/
def resDup : SearchResult :=
  ⟨"success", "alice", "foo", ["https://gist.github.com/alice/1"]⟩

/-!
### Helper lemmas
-/

/-- `re.match` truthiness is exactly "some prefix starting at position 0
is fully matched" (character-list form). -/
theorem pymatchL_iff_exists (r : Regex) (cs : List Char) :
    pymatchL r cs = true ↔ ∃ u v, cs = u ++ v ∧ rmatchL r u = true := by
  induction cs generalizing r with
  | nil =>
    constructor
    · intro h
      exact ⟨[], [], rfl, h⟩
    · rintro ⟨u, v, huv, hm⟩
      rcases List.append_eq_nil.mp huv.symm with ⟨hu, _⟩
      subst hu
      exact hm
  | cons c cs ih =>
    simp only [pymatchL, Bool.or_eq_true]
    constructor
    · intro h
      rcases h with hn | hp
      · exact ⟨[], c :: cs, rfl, hn⟩
      · rcases (ih (r.deriv c)).mp hp with ⟨u, v, huv, hm⟩
        exact ⟨c :: u, v, by simp [huv], hm⟩
    · rintro ⟨u, v, huv, hm⟩
      cases u with
      | nil =>
        exact Or.inl hm
      | cons d u' =>
        rcases List.cons.injEq .. ▸ huv with ⟨hc, hcs⟩
        subst hc
        exact Or.inr ((ih (r.deriv c)).mpr ⟨u', v, hcs, hm⟩)

/-- String form of `pymatchL_iff_exists`. -/
theorem pymatch_iff_exists (r : Regex) (t : String) :
    pymatch r t = true ↔ ∃ u v : String, t = u ++ v ∧ rmatch r u = true := by
  unfold pymatch rmatch
  rw [pymatchL_iff_exists]
  constructor
  · rintro ⟨cu, cv, h, hm⟩
    refine ⟨⟨cu⟩, ⟨cv⟩, String.ext ?_, hm⟩
    simpa [String.data_append] using h
  · rintro ⟨u, v, huv, hm⟩
    exact ⟨u.data, v.data, by rw [huv, String.data_append], hm⟩


theorem truthyOpt_some (v : JVal) : truthyOpt (some v) = v.truthy := rfl

/-- Loop equation: a falsy fetch result skips the gist, recording only
the fetch. -/
theorem searchLoop_cons_skip (username : String)
    (compile : String → Option Regex) (patternStr : String)
    (fetch : Option JVal → Option JVal) (fields : List (String × JVal))
    (rest : List JVal)
    (hf : truthyOpt (fetch (jget fields "id")) = false) :
    searchLoop username compile patternStr fetch (.obj fields :: rest)
      = (jget fields "id"
          :: (searchLoop username compile patternStr fetch rest).1,
         (searchLoop username compile patternStr fetch rest).2) := by
  rcases h : searchLoop username compile patternStr fetch rest with ⟨tr, res⟩
  simp [searchLoop, hf, h]

/-- Loop equation: a truthy fetch with an invalid pattern raises
`re.error` right there, after this gist's fetch. -/
theorem searchLoop_cons_reError (username : String)
    (compile : String → Option Regex) (patternStr : String)
    (fetch : Option JVal → Option JVal) (fields : List (String × JVal))
    (rest : List JVal)
    (hf : truthyOpt (fetch (jget fields "id")) = true)
    (hc : compile patternStr = none) :
    searchLoop username compile patternStr fetch (.obj fields :: rest)
      = ([jget fields "id"], .error .reError) := by
  simp [searchLoop, hf, hc]

/-- Loop equation: a truthy fetch whose aggregation raises propagates the
exception. -/
theorem searchLoop_cons_aggError (username : String)
    (compile : String → Option Regex) (patternStr : String) (r : Regex)
    (fetch : Option JVal → Option JVal) (fields : List (String × JVal))
    (rest : List JVal) (rec : JVal)
    (hc : compile patternStr = some r)
    (hf : fetch (jget fields "id") = some rec) (ht : rec.truthy = true)
    (hagg : get_gist_files_content rec = none) :
    searchLoop username compile patternStr fetch (.obj fields :: rest)
      = ([jget fields "id"], .error .runtimeError) := by
  simp [searchLoop, truthyOpt, hf, ht, hc, hagg]

/-- Loop equation: a truthy fetch with successful aggregation records the
URL exactly when `re.match` is truthy. -/
theorem searchLoop_cons_hit (username : String)
    (compile : String → Option Regex) (patternStr : String) (r : Regex)
    (fetch : Option JVal → Option JVal) (fields : List (String × JVal))
    (rest : List JVal) (rec : JVal) (t : String)
    (hc : compile patternStr = some r)
    (hf : fetch (jget fields "id") = some rec) (ht : rec.truthy = true)
    (hagg : get_gist_files_content rec = some t) :
    searchLoop username compile patternStr fetch (.obj fields :: rest)
      = (jget fields "id"
          :: (searchLoop username compile patternStr fetch rest).1,
         (searchLoop username compile patternStr fetch rest).2.map fun ms =>
           if pymatch r t then gistUrl username (jget fields "id") :: ms
           else ms) := by
  rcases h : searchLoop username compile patternStr fetch rest with ⟨tr, res⟩
  simp [searchLoop, truthyOpt, hf, ht, hc, hagg, h]

theorem matchedUrls_nil (username : String) (r : Regex)
    (fetch : Option JVal → Option JVal) :
    matchedUrls username r fetch [] = [] := rfl

/-- `matchedUrls` equation: a falsy fetch contributes nothing. -/
theorem matchedUrls_cons_skip (username : String) (r : Regex)
    (fetch : Option JVal → Option JVal) (fields : List (String × JVal))
    (rest : List JVal)
    (hf : truthyOpt (fetch (jget fields "id")) = false) :
    matchedUrls username r fetch (.obj fields :: rest)
      = matchedUrls username r fetch rest := by
  cases h : fetch (jget fields "id") with
  | none => simp [matchedUrls, List.filterMap_cons, h]
  | some rec =>
    rw [h, truthyOpt_some] at hf
    simp [matchedUrls, List.filterMap_cons, h, hf]

/-- `matchedUrls` equation: a truthy fetch contributes its URL exactly
when the pattern matches the aggregated content. -/
theorem matchedUrls_cons_hit (username : String) (r : Regex)
    (fetch : Option JVal → Option JVal) (fields : List (String × JVal))
    (rest : List JVal) (rec : JVal) (t : String)
    (hf : fetch (jget fields "id") = some rec) (ht : rec.truthy = true)
    (hagg : get_gist_files_content rec = some t) :
    matchedUrls username r fetch (.obj fields :: rest)
      = (if pymatch r t then [gistUrl username (jget fields "id")] else [])
        ++ matchedUrls username r fetch rest := by
  cases hp : pymatch r t with
  | false => simp [matchedUrls, List.filterMap_cons, hf, ht, hagg, hp]
  | true => simp [matchedUrls, List.filterMap_cons, hf, ht, hagg, hp]

/-- When the loop finishes without an exception, the recorded URLs are
exactly `matchedUrls`. -/
theorem searchLoop_ok_eq (username patternStr : String) (r : Regex)
    (fetch : Option JVal → Option JVal) (gists : List JVal)
    (tr : List (Option JVal)) (ms : List String)
    (h : searchLoop username (fun _ => some r) patternStr fetch gists
      = (tr, .ok ms)) :
    ms = matchedUrls username r fetch gists := by
  induction gists generalizing tr ms with
  | nil =>
    simp only [searchLoop, Prod.mk.injEq] at h
    rw [matchedUrls_nil]
    exact (Except.ok.inj h.2).symm
  | cons g rest ih =>
    rcases hrec : searchLoop username (fun _ => some r) patternStr fetch rest
      with ⟨tr', res'⟩
    cases g with
    | obj fields =>
      cases hf : truthyOpt (fetch (jget fields "id")) with
      | false =>
        rw [searchLoop_cons_skip username _ patternStr fetch fields rest hf,
          hrec] at h
        obtain ⟨-, h2⟩ := Prod.mk.inj h
        cases res' with
        | error e => exact Except.noConfusion h2
        | ok ms' =>
          rw [matchedUrls_cons_skip username r fetch fields rest hf,
            ← Except.ok.inj h2]
          exact ih tr' ms' (by rw [hrec, Except.ok.inj h2])
      | true =>
        rcases hfv : fetch (jget fields "id") with _ | rec
        · rw [hfv, truthyOpt] at hf
          exact Bool.noConfusion hf
        · have ht : rec.truthy = true := by rwa [hfv, truthyOpt_some] at hf
          cases hagg : get_gist_files_content rec with
          | none =>
            rw [searchLoop_cons_aggError username _ patternStr r fetch fields
              rest rec rfl hfv ht hagg] at h
            exact Except.noConfusion (Prod.mk.inj h).2
          | some t =>
            rw [searchLoop_cons_hit username _ patternStr r fetch fields rest
              rec t rfl hfv ht hagg, hrec] at h
            obtain ⟨-, h2⟩ := Prod.mk.inj h
            cases res' with
            | error e => exact Except.noConfusion h2
            | ok ms' =>
              have hms' : ms' = matchedUrls username r fetch rest :=
                ih tr' ms' (by rw [hrec])
              have h3 := Except.ok.inj h2
              rw [matchedUrls_cons_hit username r fetch fields rest rec t hfv
                ht hagg, ← h3, hms']
              cases hp : pymatch r t with
              | false => simp [hp]
              | true => simp [hp]
    | str s => exact Except.noConfusion (Prod.mk.inj h).2
    | arr elems => exact Except.noConfusion (Prod.mk.inj h).2
    | null => exact Except.noConfusion (Prod.mk.inj h).2

/-- A leading block of gists whose fetches come back falsy is fetched and
skipped; the loop continues on the remainder unchanged. -/
theorem searchLoop_skips (username : String)
    (compile : String → Option Regex) (patternStr : String)
    (fetch : Option JVal → Option JVal) (gs : List JVal) (rest : List JVal)
    (hskip : ∀ g ∈ gs, ∃ fields, g = JVal.obj fields ∧
      truthyOpt (fetch (jget fields "id")) = false) :
    searchLoop username compile patternStr fetch (gs ++ rest)
      = (gs.map gistIdArg
          ++ (searchLoop username compile patternStr fetch rest).1,
         (searchLoop username compile patternStr fetch rest).2) := by
  induction gs with
  | nil => simp
  | cons g gs ih =>
    rcases hskip g (List.mem_cons_self g gs) with ⟨fields, hg, hf⟩
    subst hg
    rw [List.cons_append,
      searchLoop_cons_skip username compile patternStr fetch fields
        (gs ++ rest) hf,
      ih fun g hg => hskip g (List.mem_cons_of_mem _ hg)]
    simp [gistIdArg, jget]

/-- The per-gist loop never raises `ValueError`: validation is the only
source of that exception. -/
theorem searchLoop_ne_valueError (username : String)
    (compile : String → Option Regex) (patternStr : String)
    (fetch : Option JVal → Option JVal) (gists : List JVal) :
    (searchLoop username compile patternStr fetch gists).2
      ≠ Except.error PyExc.valueError := by
  induction gists with
  | nil => simp [searchLoop]
  | cons g rest ih =>
    rcases hrec : searchLoop username compile patternStr fetch rest
      with ⟨tr', res'⟩
    cases g with
    | obj fields =>
      cases hf : truthyOpt (fetch (jget fields "id")) with
      | false =>
        rw [searchLoop_cons_skip username compile patternStr fetch fields
          rest hf, hrec]
        rw [hrec] at ih
        exact ih
      | true =>
        rcases hfv : fetch (jget fields "id") with _ | rec
        · rw [hfv, truthyOpt] at hf
          exact Bool.noConfusion hf
        · have ht : rec.truthy = true := by rwa [hfv, truthyOpt_some] at hf
          cases hc : compile patternStr with
          | none =>
            rw [searchLoop_cons_reError username compile patternStr fetch
              fields rest hf hc]
            simp
          | some r =>
            cases hagg : get_gist_files_content rec with
            | none =>
              rw [searchLoop_cons_aggError username compile patternStr r
                fetch fields rest rec hc hfv ht hagg]
              simp
            | some t =>
              rw [searchLoop_cons_hit username compile patternStr r fetch
                fields rest rec t hc hfv ht hagg, hrec]
              rw [hrec] at ih
              cases res' with
              | error e => simpa [Except.map] using ih
              | ok ms => simp [Except.map]
    | str s => simp [searchLoop]
    | arr elems => simp [searchLoop]
    | null => simp [searchLoop]

/-- Step equation: a successful page with a `next` link recurses on the
remaining responses with the items appended to the accumulator. -/
theorem gists_for_user_st_cons_ok (p : PageResp) (rest : List PageResp)
    (data items : List JVal) (hstatus : p.status ≠ 422)
    (hb : p.body = some (.arr items)) (hnext : p.hasNext = true) :
    gists_for_user_st (p :: rest) data
      = gists_for_user_st rest (data ++ items) := by
  simp [gists_for_user_st, hstatus, hb, hnext]

/-- Step equation: a successful page without a `next` link returns the
accumulated data. -/
theorem gists_for_user_st_cons_last (p : PageResp) (rest : List PageResp)
    (data items : List JVal) (hstatus : p.status ≠ 422)
    (hb : p.body = some (.arr items)) (hnext : p.hasNext = false) :
    gists_for_user_st (p :: rest) data
      = (data ++ items, data ++ items) := by
  simp [gists_for_user_st, hstatus, hb, hnext]

/-- Step equation: a failing page (status 422, non-list body, or decode
failure) returns a fresh empty list, leaving the accumulator as it was at
entry to this page. -/
theorem gists_for_user_st_cons_fail (p : PageResp) (rest : List PageResp)
    (data : List JVal) (hbad : pageFails p = true) :
    gists_for_user_st (p :: rest) data = ([], data) := by
  simp only [pageFails, pageOk, Bool.not_eq_eq_eq_not, Bool.not_true,
    Bool.and_eq_false_iff, decide_eq_false_iff_not, Decidable.not_not]
    at hbad
  rcases hbad with hstatus | hbody
  · simp [gists_for_user_st, hstatus]
  · cases h422 : decide (p.status = 422) with
    | true =>
      simp only [decide_eq_true_eq] at h422
      simp [gists_for_user_st, h422]
    | false =>
      simp only [decide_eq_false_iff_not] at h422
      rcases hb : p.body with _ | v
      · simp [gists_for_user_st, h422, hb]
      · cases v with
        | arr items => rw [hb] at hbody; exact Bool.noConfusion hbody
        | str sv => simp [gists_for_user_st, h422, hb]
        | obj fields => simp [gists_for_user_st, h422, hb]
        | null => simp [gists_for_user_st, h422, hb]

/-- A page passing `pageOk` has a list body. -/
theorem pageOk_body (p : PageResp) (h : pageOk p = true) :
    p.status ≠ 422 ∧ ∃ items, p.body = some (.arr items) := by
  simp only [pageOk, Bool.and_eq_true, decide_eq_true_eq] at h
  obtain ⟨hstatus, hbody⟩ := h
  refine ⟨hstatus, ?_⟩
  rcases hb : p.body with _ | v
  · rw [hb] at hbody; exact Bool.noConfusion hbody
  · cases v with
    | arr items => exact ⟨items, rfl⟩
    | str sv => rw [hb] at hbody; exact Bool.noConfusion hbody
    | obj fields => rw [hb] at hbody; exact Bool.noConfusion hbody
    | null => rw [hb] at hbody; exact Bool.noConfusion hbody

/-- The items of a page with body `some (.arr items)` are `items`. -/
theorem pageItems_of_body (p : PageResp) (items : List JVal)
    (hb : p.body = some (.arr items)) : pageItems p = items := by
  simp [pageItems, hb]

/-- A fully successful chained listing accumulates every page's items in
page order, both in the return value and in the shared accumulator. -/
theorem gists_for_user_st_chained (pages : List PageResp)
    (h : chained pages = true) (data : List JVal) :
    gists_for_user_st pages data
      = (data ++ allItems pages, data ++ allItems pages) := by
  induction pages generalizing data with
  | nil => exact Bool.noConfusion h
  | cons p rest ih =>
    cases rest with
    | nil =>
      simp only [chained, Bool.and_eq_true, Bool.not_eq_eq_eq_not,
        Bool.not_true] at h
      obtain ⟨hok, hnext⟩ := h
      obtain ⟨hstatus, items, hb⟩ := pageOk_body p hok
      rw [gists_for_user_st_cons_last p [] data items hstatus hb hnext]
      simp [allItems, pageItems_of_body p items hb]
    | cons q rest' =>
      simp only [chained, Bool.and_eq_true] at h
      obtain ⟨⟨hok, hnext⟩, hch⟩ := h
      obtain ⟨hstatus, items, hb⟩ := pageOk_body p hok
      rw [gists_for_user_st_cons_ok p (q :: rest') data items hstatus hb
        hnext, ih hch (data ++ items)]
      simp [allItems, pageItems_of_body p items hb, List.append_assoc]

/-- A run of successful linked pages followed by a failing page: the
return value is the fresh empty list, while the shared accumulator keeps
the items of the successful prefix. -/
theorem gists_for_user_st_fail_after (gs : List PageResp) (bad : PageResp)
    (rest : List PageResp) (data : List JVal)
    (hgood : ∀ p ∈ gs, pageOk p = true ∧ p.hasNext = true)
    (hbad : pageFails bad = true) :
    gists_for_user_st (gs ++ bad :: rest) data
      = ([], data ++ allItems gs) := by
  induction gs generalizing data with
  | nil =>
    rw [List.nil_append, gists_for_user_st_cons_fail bad rest data hbad]
    simp [allItems]
  | cons p gs ih =>
    rcases hgood p (List.mem_cons_self p gs) with ⟨hok, hnext⟩
    obtain ⟨hstatus, items, hb⟩ := pageOk_body p hok
    rw [List.cons_append,
      gists_for_user_st_cons_ok p (gs ++ bad :: rest) data items hstatus
        hb hnext,
      ih (data ++ items) (fun q hq => hgood q (List.mem_cons_of_mem _ hq))]
    simp [allItems, pageItems_of_body p items hb, List.append_assoc]

/-- `search` equation: any validation failure raises `ValueError` before
any outbound call. -/
theorem search_eq_validation_error (payloadKeys : List String)
    (username patternStr : String) (compile : String → Option Regex)
    (pages : List PageResp) (fetch : Option JVal → Option JVal)
    (defaultData : List JVal)
    (hcond : payloadKeys ≠ ["username", "pattern"] ∨ username = "" ∨
      patternStr = "") :
    search payloadKeys username patternStr compile pages fetch defaultData
      = (⟨false, []⟩, .error .valueError) := by
  by_cases hk : payloadKeys ≠ ["username", "pattern"]
  · simp [search, hk]
  · rw [not_not] at hk
    subst hk
    have he : username = "" ∨ patternStr = "" := by
      rcases hcond with h | h | h
      · exact absurd rfl h
      · exact Or.inl h
      · exact Or.inr h
    simp [search, he]

/-- `search` equation: after validation passes, the result is the loop's
result over the listed gists, with the matches deduplicated. -/
theorem search_eq_loop (username patternStr : String)
    (compile : String → Option Regex) (pages : List PageResp)
    (fetch : Option JVal → Option JVal) (defaultData : List JVal)
    (hu : username ≠ "") (hp : patternStr ≠ "") :
    search ["username", "pattern"] username patternStr compile pages fetch
      defaultData
      = (⟨true, (searchLoop username compile patternStr fetch
            (gists_for_user pages defaultData)).1⟩,
         (searchLoop username compile patternStr fetch
            (gists_for_user pages defaultData)).2.map fun ms =>
          (⟨"success", username, patternStr, ms.dedup⟩ : SearchResult)) := by
  rcases h : searchLoop username compile patternStr fetch
    (gists_for_user pages defaultData) with ⟨tr, res⟩
  simp [search, hu, hp, h]

/-!
### The claims
-/

/-- C5 counterexample: a body that decodes successfully to a non-mapping
(here the list `[null]`, with a non-error status) makes `get_gist` return
absent, where the claim requires the decoded record returned unchanged:
`response_data.keys()` raises `AttributeError` and the bare `except:`
turns it into the failure return. -/
theorem c5_nonmapping_counterexample :
    get_gist 200 (some (.arr [JVal.null])) = none ∧
      (none : Option JVal) ≠ some (JVal.arr [JVal.null]) :=
  ⟨rfl, fun h => Option.noConfusion h⟩

/-- C5 amended: `fetchGist` returns absent exactly when the status is
forbidden/not-found, the body fails to decode, the decoded body is not a
mapping, or it is a mapping with both `documentation_url` and `message`
keys; every other decoded mapping is returned unchanged. -/
theorem c5_fetch_absent_amended (status : Nat) (body : Option JVal) :
    (get_gist status body = none ↔
      status = 403 ∨ status = 404 ∨ body = none ∨
      (∃ elems, body = some (.arr elems)) ∨
      (∃ sv, body = some (.str sv)) ∨ body = some .null ∨
      (∃ fields, body = some (.obj fields) ∧
        ((jlookup fields "documentation_url").isSome ∧
          (jlookup fields "message").isSome))) ∧
    ∀ v, get_gist status body = some v → body = some v := by
  by_cases hs : status = 403 ∨ status = 404
  · constructor
    · constructor
      · intro _
        rcases hs with h | h
        · exact Or.inl h
        · exact Or.inr (Or.inl h)
      · intro _
        simp [get_gist, hs]
    · intro v hv
      rw [get_gist.eq_def, if_pos hs] at hv
      exact Option.noConfusion hv
  · obtain ⟨h403, h404⟩ := not_or.mp hs
    rcases hb : body with _ | v
    · simp [get_gist, h403, h404]
    · cases v with
      | arr elems => simp [get_gist, h403, h404]
      | str sv => simp [get_gist, h403, h404]
      | null => simp [get_gist, h403, h404]
      | obj fields =>
        by_cases hkeys : (jlookup fields "documentation_url").isSome ∧
          (jlookup fields "message").isSome
        · simp [get_gist, h403, h404, hkeys]
        · simp [get_gist, h403, h404, hkeys]

/-- C5 witness: a plain record (status 200, no error-envelope keys) is
returned unchanged. -/
theorem c5_fetch_absent_amended_witness :
    (some (JVal.obj [("files", JVal.obj [])]) : Option JVal)
      = some (JVal.obj [("files", JVal.obj [])]) :=
  (c5_fetch_absent_amended 200 (some (.obj [("files", .obj [])]))).2
    (JVal.obj [("files", JVal.obj [])]) rfl

/-- C8: the claim's totality is the intent (the spec marks the source
behaviour a defect), but the source raises: a file entry without
`content` makes `item.get('content') + "\n"` raise `TypeError` (first
conjunct, the failing input).  The no-`files` and empty-`files` halves of
the claim do hold (second and third conjuncts). -/
theorem c8_aggregation_raises :
    get_gist_files_content
      (.obj [("files", .obj [("file.txt", .obj [])])]) = none ∧
    get_gist_files_content (.obj [("id", .str "1")]) = some "" ∧
    get_gist_files_content (.obj [("files", .obj [])]) = some "" :=
  ⟨rfl, rfl, rfl⟩

/-- C3: the shared mutable default accumulator (`data=[]` plus
`data += ...`) leaks state across top-level calls: against the identical
one-page listing, the first call returns one item, the second returns two
(the first call's item included), so the two results differ. -/
theorem c3_shared_accumulator_bug :
    gists_for_user [pageSingle] [] = [JVal.obj [("id", JVal.str "1")]] ∧
    gists_for_user [pageSingle] (gists_for_user_st [pageSingle] []).2
      = [JVal.obj [("id", JVal.str "1")],
         JVal.obj [("id", JVal.str "1")]] ∧
    (gists_for_user [pageSingle]
        (gists_for_user_st [pageSingle] []).2).length
      ≠ (gists_for_user [pageSingle] []).length :=
  ⟨rfl, rfl, by decide⟩

/-- C6: a fully chained listing is followed to the end and returns every
page's items in page order. -/
theorem c6_pagination (pages : List PageResp)
    (h : chained pages = true) :
    gists_for_user pages [] = allItems pages := by
  unfold gists_for_user
  rw [gists_for_user_st_chained pages h []]
  simp

/-- C6 witness: three pages of one item each, chained via `next` links,
yield the three summaries in page order. -/
theorem c6_pagination_witness :
    gists_for_user [pageOne1, pageOne2, pageOne3] []
      = [JVal.obj [("id", JVal.str "1")], JVal.obj [("id", JVal.str "2")],
         JVal.obj [("id", JVal.str "3")]] :=
  (c6_pagination [pageOne1, pageOne2, pageOne3] rfl).trans rfl

/-- C7 counterexample: page 1 succeeds with one item and advertises a
`next` link; page 2 fails with status 422.  The claim requires the item
from page 1 to be returned; `gists_for_user` returns the empty list (the
item survives only inside the mutated shared accumulator). -/
theorem c7_discard_accumulated_counterexample :
    gists_for_user [pageNext1, page422] [] = [] ∧
    (gists_for_user_st [pageNext1, page422] []).2
      = [JVal.obj [("id", JVal.str "1")]] :=
  ⟨rfl, rfl⟩

/-- C7 amended: when the pages after a successful linked prefix fail, the
listing returns the empty sequence, discarding the accumulated items from
the return value; those items persist only in the shared accumulator. -/
theorem c7_discard_accumulated_amended (gs : List PageResp) (bad : PageResp)
    (rest : List PageResp) (data : List JVal)
    (hgood : ∀ p ∈ gs, pageOk p = true ∧ p.hasNext = true)
    (hbad : pageFails bad = true) :
    gists_for_user (gs ++ bad :: rest) data = [] ∧
    (gists_for_user_st (gs ++ bad :: rest) data).2
      = data ++ allItems gs := by
  rw [gists_for_user,
    gists_for_user_st_fail_after gs bad rest data hgood hbad]
  exact ⟨rfl, rfl⟩

/-- C7 witness for the amended statement at one good page followed by a
422 page. -/
theorem c7_discard_accumulated_amended_witness :
    gists_for_user [pageNext1, page422] [] = [] ∧
    (gists_for_user_st [pageNext1, page422] []).2
      = [] ++ allItems [pageNext1] :=
  c7_discard_accumulated_amended [pageNext1] page422 [] []
    (by decide) rfl

/-- C9: any successful response's `matches` list has no duplicates, and
deduplicating it again changes nothing. -/
theorem c9_dedup_idempotent (payloadKeys : List String)
    (username patternStr : String) (compile : String → Option Regex)
    (pages : List PageResp) (fetch : Option JVal → Option JVal)
    (defaultData : List JVal) (tr : Trace) (res : SearchResult)
    (h : search payloadKeys username patternStr compile pages fetch
      defaultData = (tr, .ok res)) :
    res.matchesSet.Nodup ∧ res.matchesSet.dedup = res.matchesSet := by
  by_cases hk : payloadKeys = ["username", "pattern"]
  · by_cases hu : username = ""
    · rw [search_eq_validation_error payloadKeys username patternStr compile
        pages fetch defaultData (Or.inr (Or.inl hu))] at h
      exact absurd (Prod.mk.inj h).2 (fun hc => Except.noConfusion hc)
    · by_cases hp : patternStr = ""
      · rw [search_eq_validation_error payloadKeys username patternStr
          compile pages fetch defaultData (Or.inr (Or.inr hp))] at h
        exact absurd (Prod.mk.inj h).2 (fun hc => Except.noConfusion hc)
      · subst hk
        rw [search_eq_loop username patternStr compile pages fetch
          defaultData hu hp] at h
        rcases hloop : searchLoop username compile patternStr fetch
          (gists_for_user pages defaultData) with ⟨tr', res'⟩
        rw [hloop] at h
        cases res' with
        | error e =>
          have h2 := (Prod.mk.inj h).2
          simp [Except.map] at h2
        | ok ms =>
          have h2 := (Prod.mk.inj h).2
          simp only [Except.map, Except.ok.injEq] at h2
          rw [← h2]
          exact ⟨List.nodup_dedup ms, List.dedup_idem⟩
  · rw [search_eq_validation_error payloadKeys username patternStr compile
      pages fetch defaultData (Or.inl hk)] at h
    exact absurd (Prod.mk.inj h).2 (fun hc => Except.noConfusion hc)

/-- C9 witness: a listing that names gist `1` twice would record its URL
twice; the response carries it once, and deduplication is idempotent. -/
theorem c9_dedup_idempotent_witness :
    resDup.matchesSet.Nodup ∧
      resDup.matchesSet.dedup = resDup.matchesSet :=
  c9_dedup_idempotent ["username", "pattern"] "alice" "foo"
    (fun _ => some fooRe) [pageDup] fetchW []
    ⟨true, [some (JVal.str "1"), some (JVal.str "1")]⟩ resDup rfl

/-- C4 counterexample: a payload whose two keys arrive in the order
`pattern, username` (the same key *set*) is rejected with `ValueError`,
because the source compares `list(post_data.keys())` against the ordered
list `['username', 'pattern']`. -/
theorem c4_key_order_counterexample :
    (search ["pattern", "username"] "alice" "foo" (fun _ => some fooRe)
      [pageSingle] fetchW []).2 = .error .valueError := rfl

/-- C4 amended: `search` fails with `ValueError` exactly when the
payload's ordered key list differs from `['username', 'pattern']` (key
order matters) or either value is empty; exactly then no outbound network
call is made. -/
theorem c4_validation_amended (payloadKeys : List String)
    (username patternStr : String) (compile : String → Option Regex)
    (pages : List PageResp) (fetch : Option JVal → Option JVal)
    (defaultData : List JVal) :
    ((search payloadKeys username patternStr compile pages fetch
        defaultData).2 = .error .valueError ↔
      payloadKeys ≠ ["username", "pattern"] ∨ username = "" ∨
        patternStr = "") ∧
    ((search payloadKeys username patternStr compile pages fetch
          defaultData).1.listingFetched = false ∧
        (search payloadKeys username patternStr compile pages fetch
          defaultData).1.gistFetches = [] ↔
      payloadKeys ≠ ["username", "pattern"] ∨ username = "" ∨
        patternStr = "") := by
  by_cases hk : payloadKeys = ["username", "pattern"]
  · by_cases hu : username = ""
    · rw [search_eq_validation_error payloadKeys username patternStr compile
        pages fetch defaultData (Or.inr (Or.inl hu))]
      exact ⟨by simp [hu], by simp [hu]⟩
    · by_cases hp : patternStr = ""
      · rw [search_eq_validation_error payloadKeys username patternStr
          compile pages fetch defaultData (Or.inr (Or.inr hp))]
        exact ⟨by simp [hp], by simp [hp]⟩
      · subst hk
        rw [search_eq_loop username patternStr compile pages fetch
          defaultData hu hp]
        have hne := searchLoop_ne_valueError username compile patternStr
          fetch (gists_for_user pages defaultData)
        rcases hloop : searchLoop username compile patternStr fetch
          (gists_for_user pages defaultData) with ⟨tr', res'⟩
        rw [hloop] at hne
        constructor
        · constructor
          · intro hcontra
            exfalso
            cases res' with
            | error e =>
              simp only [Except.map, Except.error.injEq] at hcontra
              exact hne (by rw [hcontra])

            | ok ms => simp [Except.map] at hcontra
          · intro hcond
            exfalso
            rcases hcond with h | h | h
            · exact absurd rfl h
            · exact absurd h hu
            · exact absurd h hp
        · constructor
          · rintro ⟨hlf, -⟩
            exact absurd hlf (by simp)
          · intro hcond
            exfalso
            rcases hcond with h | h | h
            · exact absurd rfl h
            · exact absurd h hu
            · exact absurd h hp
  · rw [search_eq_validation_error payloadKeys username patternStr compile
      pages fetch defaultData (Or.inl hk)]
    exact ⟨by simp [hk], by simp [hk]⟩

/-- C2 counterexample: with the pattern `"("` (compilation fails) and a
listing that is empty (status 422 page), `search` does not reject the
request at all: `re.compile` sits inside the per-gist loop, so with no
gists to iterate the invalid pattern is never detected and the request
succeeds. -/
theorem c2_invalid_pattern_counterexample :
    (search ["username", "pattern"] "alice" "(" (fun _ => none) [page422]
      (fun _ => none) []).2
      = .ok ⟨"success", "alice", "(", []⟩ := rfl

/-- C2 amended: an invalid pattern surfaces as an unhandled compile error
(`re.error`, distinct from `ValueError`) only at the first listed gist
whose fetch is truthy — after the listing has been retrieved and after
that gist (and every earlier, falsy one) has been fetched. -/
theorem c2_invalid_pattern_amended (username patternStr : String)
    (compile : String → Option Regex) (pages : List PageResp)
    (fetch : Option JVal → Option JVal) (defaultData : List JVal)
    (gs : List JVal) (fields : List (String × JVal)) (rest : List JVal)
    (hu : username ≠ "") (hp : patternStr ≠ "")
    (hc : compile patternStr = none)
    (hlist : gists_for_user pages defaultData
      = gs ++ JVal.obj fields :: rest)
    (hskip : ∀ g ∈ gs, ∃ f, g = JVal.obj f ∧
      truthyOpt (fetch (jget f "id")) = false)
    (hhit : truthyOpt (fetch (jget fields "id")) = true) :
    search ["username", "pattern"] username patternStr compile pages fetch
        defaultData
      = (⟨true, gs.map gistIdArg ++ [jget fields "id"]⟩,
         .error .reError) ∧
      PyExc.reError ≠ PyExc.valueError := by
  refine ⟨?_, by decide⟩
  rw [search_eq_loop username patternStr compile pages fetch defaultData
      hu hp, hlist,
    searchLoop_skips username compile patternStr fetch gs
      (JVal.obj fields :: rest) hskip,
    searchLoop_cons_reError username compile patternStr fetch fields rest
      hhit hc]
  rfl

/-- C2 witness for the amended statement: listing `[3, 1]`, gist `3`
fails to fetch, gist `1` is truthy; the error is raised after both
fetches. -/
theorem c2_invalid_pattern_amended_witness :
    search ["username", "pattern"] "alice" "(" (fun _ => none)
        [pageSkipThenHit] fetchW []
      = (⟨true, [some (JVal.str "3"), some (JVal.str "1")]⟩,
         .error .reError) ∧
      PyExc.reError ≠ PyExc.valueError := by
  have h := c2_invalid_pattern_amended "alice" "(" (fun _ => none)
    [pageSkipThenHit] fetchW [] [JVal.obj [("id", JVal.str "3")]]
    [("id", JVal.str "1")] [] (by decide) (by decide) rfl rfl
    (by intro g hg
        rw [List.mem_singleton] at hg
        subst hg
        exact ⟨[("id", JVal.str "3")], rfl, rfl⟩)
    rfl
  exact h

/-- C10: a fetched record equal to the empty mapping is falsy, so the
gist is skipped exactly like a failed fetch, even when the pattern
matches the empty string; a record whose `files` mapping is present but
empty aggregates to `""` and is recorded for such a pattern. -/
theorem c10_empty_record_skipped (username patternStr : String) (r : Regex)
    (compile : String → Option Regex) (hc : compile patternStr = some r)
    (fetch : Option JVal → Option JVal) (fields : List (String × JVal))
    (rest : List JVal) (hmatch : pymatch r "" = true) :
    (fetch (jget fields "id") = some (.obj []) →
      searchLoop username compile patternStr fetch (.obj fields :: rest)
        = (jget fields "id"
            :: (searchLoop username compile patternStr fetch rest).1,
           (searchLoop username compile patternStr fetch rest).2)) ∧
    (fetch (jget fields "id") = some (.obj [("files", .obj [])]) →
      searchLoop username compile patternStr fetch [.obj fields]
        = ([jget fields "id"],
           .ok [gistUrl username (jget fields "id")])) := by
  constructor
  · intro hf
    exact searchLoop_cons_skip username compile patternStr fetch fields
      rest (by rw [hf]; rfl)
  · intro hf
    rw [searchLoop_cons_hit username compile patternStr r fetch fields []
      (.obj [("files", .obj [])]) "" hc hf rfl rfl]
    simp [searchLoop, hmatch, Except.map]

/-- C10 witness: pattern compiling to `ε` (matches the empty string); the
empty record is skipped, the empty-`files` record is recorded. -/
theorem c10_empty_record_skipped_witness :
    searchLoop "bob" (fun _ => some Regex.eps) "" 
        (fun _ => some (.obj [("files", .obj [])]))
        [.obj [("id", .str "7")]]
      = ([some (JVal.str "7")], .ok ["https://gist.github.com/bob/7"]) :=
  (c10_empty_record_skipped "bob" "" Regex.eps (fun _ => some Regex.eps)
    rfl (fun _ => some (.obj [("files", .obj [])])) [("id", .str "7")]
    [] rfl).2 rfl

/-- C1: when a request reaches the per-gist loop and the loop finishes
without an exception, the recorded URLs are exactly those of the truthy
fetched gists whose aggregated content the compiled pattern matches at
position 0; and that match test (`re.match` truthiness) holds exactly
when some prefix of the content starting at position 0 is fully matched
(prefix-anchored, not search-anywhere). -/
theorem c1_anchored_match (username patternStr : String) (r : Regex)
    (fetch : Option JVal → Option JVal) (gists : List JVal)
    (tr : List (Option JVal)) (ms : List String)
    (h : searchLoop username (fun _ => some r) patternStr fetch gists
      = (tr, .ok ms)) :
    ms = matchedUrls username r fetch gists ∧
      ∀ t : String, pymatch r t = true ↔
        ∃ u v : String, t = u ++ v ∧ rmatch r u = true :=
  ⟨searchLoop_ok_eq username patternStr r fetch gists tr ms h,
   fun t => pymatch_iff_exists r t⟩

/-- C1 witness: pattern `foo` against gist `1` (content `foobar`, prefix
match, included) and gist `2` (content `xfoo`, mid-string only,
excluded). -/
theorem c1_anchored_match_witness :
    ["https://gist.github.com/alice/1"]
        = matchedUrls "alice" fooRe fetchW gistsW ∧
      (pymatch fooRe "foobar" = true ↔
        ∃ u v : String, "foobar" = u ++ v ∧ rmatch fooRe u = true) := by
  have h := c1_anchored_match "alice" "foo" fooRe fetchW gistsW
    [some (JVal.str "1"), some (JVal.str "2")]
    ["https://gist.github.com/alice/1"] rfl
  exact ⟨h.1, h.2 "foobar"⟩

end Gistapi
